import Mathlib

/-!
# Verification of the `join-date-mapping` serverless function

A shallow embedding of `src/join-date-mapping.js`, a Stripe-webhook handler
that stamps a write-once `join_date` field on a HubSpot contact, together
with proofs of the specified properties.

The embedding models:

* `formatJoinDate` — the pure date-derivation helper
  (`new Date(ts * 1000).toISOString().split('T')[0]`);
* `findContactByEmail` — the contact lookup, including its tolerance for
  flat and `body`-wrapped search-response shapes;
* `processJoinDateMapping` — the write-once conditional update;
* `main` — the serverless entry point, including secret check,
  connectivity test, email validation, event-type dispatch and the
  catch-all error boundary.

External effects (the HubSpot API) are modelled by an explicit environment
`Env` supplying the outcome of each external call, and every function
additionally returns the list of external CRM calls it issued, so that
claims about side effects ("no write occurs", "at most one mutation") are
statements about that trace.  A small stateful CRM model (`Crm`) on top of
the trace semantics expresses the idempotence property.
-/

namespace JoinDate

/-! ## Date formatting (`formatJoinDate`)

The JS code converts the Unix timestamp to a `Date`, takes the
`toISOString()` rendering `YYYY-MM-DDTHH:mm:ss.sssZ`, and keeps the part
before the `'T'`.  We model `toISOString` faithfully (UTC civil date via
the standard days-to-civil-date algorithm, zero-padded fields) for
timestamps in the range where real `toISOString` uses the 4-digit year
format. -/

/-- The character for a single decimal digit. -/
def digitChar (n : Nat) : Char := Char.ofNat (48 + n)

/-- Decimal digit characters, most significant first, with explicit fuel
(structural recursion, so that concrete evaluations reduce in the
kernel).  The fuel bounds the number of digits produced. -/
def natDigitsAux : Nat → Nat → List Char
  | 0, _ => []
  | fuel + 1, n =>
    if n < 10 then [digitChar n]
    else natDigitsAux fuel (n / 10) ++ [digitChar (n % 10)]

/-- Decimal digit characters of a natural number, most significant first.
`n + 1` units of fuel always suffice, as a number has at most
`n + 1` digits. -/
def natDigits (n : Nat) : List Char := natDigitsAux (n + 1) n

/-- Left-pad a digit list with `'0'` up to width `w`. -/
def padLeft (w : Nat) (l : List Char) : List Char :=
  List.replicate (w - l.length) '0' ++ l

/-- A natural number rendered with at least `w` decimal digits. -/
def padNat (w n : Nat) : List Char := padLeft w (natDigits n)

/-- Convert a count of days since 1970-01-01 to the Gregorian (proleptic)
civil date `(year, month, day)`, as `Date.prototype.toISOString` does for
its UTC components.  Standard era-based algorithm, restricted to
non-negative day counts. -/
def civilFromDays (z : Nat) : Nat × Nat × Nat :=
  let z' := z + 719468
  let era := z' / 146097
  let doe := z' % 146097
  let yoe := (doe - doe / 1460 + doe / 36524 - doe / 146096) / 365
  let y := yoe + era * 400
  let doy := doe - (365 * yoe + yoe / 4 - yoe / 100)
  let mp := (5 * doy + 2) / 153
  let d := doy - (153 * mp + 2) / 5 + 1
  let m := if mp < 10 then mp + 3 else mp - 9
  (if m ≤ 2 then y + 1 else y, m, d)

/-- The `YYYY-MM-DD` character rendering of a civil date. -/
def dateChars (ymd : Nat × Nat × Nat) : List Char :=
  padNat 4 ymd.1 ++ '-' :: (padNat 2 ymd.2.1 ++ '-' :: padNat 2 ymd.2.2)

/-- The `HH:mm:ss.sss` character rendering of a millisecond-of-day count. -/
def timeChars (msOfDay : Nat) : List Char :=
  padNat 2 (msOfDay / 3600000) ++
    ':' :: (padNat 2 (msOfDay / 60000 % 60) ++
      ':' :: (padNat 2 (msOfDay / 1000 % 60) ++
        '.' :: padNat 3 (msOfDay % 1000)))

/-- Model of `Date.prototype.toISOString` on a non-negative millisecond
timestamp: `YYYY-MM-DDTHH:mm:ss.sssZ` on the UTC calendar. -/
def toISOString (ms : Nat) : String :=
  String.mk (dateChars (civilFromDays (ms / 86400000)) ++
    'T' :: (timeChars (ms % 86400000) ++ ['Z']))

/-- `formatJoinDate` from the source: convert the Unix timestamp (seconds)
to a millisecond `Date`, render it with `toISOString`, and keep the part
before the first `'T'` (JS `split('T')[0]`). -/
def formatJoinDate (unixTimestamp : Nat) : String :=
  String.mk ((toISOString (unixTimestamp * 1000)).data.takeWhile (fun c => c ≠ 'T'))

/-- The UTC-truncation policy stated by the spec: the calendar date string
of the instant's UTC civil date, in `YYYY-MM-DD` form. -/
def utcDateString (unixTimestamp : Nat) : String :=
  String.mk (dateChars (civilFromDays (unixTimestamp / 86400)))

/-! ## Data model

JavaScript truthiness on the optional string fields involved (a field is
falsy when absent, `null` or the empty string) is modelled by `jsTruthy`
on `Option String`. -/

/-- Truthiness of an optional string field: present and non-empty. -/
def jsTruthy : Option String → Bool
  | none => false
  | some s => s ≠ ""

/-- A contact record as observed through the search API: its opaque `id`
and the single requested property `properties.join_date`. -/
structure ContactRecord where
  id : String
  join_date : Option String
  deriving DecidableEq, Repr

/-- The optional `body` wrapper of a search response. -/
structure SearchBody where
  results : Option (List ContactRecord)
  deriving DecidableEq, Repr

/-- A search response as the SDK may deliver it: either a top-level
`results` list, or a `results` list nested under `body`, or neither. -/
structure SearchResponse where
  results : Option (List ContactRecord)
  body : Option SearchBody
  deriving DecidableEq, Repr

/-- The inbound Stripe event (`context.body` after `JSON.parse`): the
fields the handler reads.  `customerEmail` models
`data.object.customer_details.email`, with `""` for a missing or empty
value. -/
structure EventBody where
  eventType : String
  eventId : String
  created : Nat
  customerEmail : String
  deriving DecidableEq, Repr

/-- The serverless invocation context: the `joinDateKey` secret (with `""`
for a missing secret) and the parsed request body. -/
structure Context where
  joinDateKey : String
  body : EventBody
  deriving DecidableEq, Repr

/-- The result object returned by `processJoinDateMapping` on success.
Fields that a branch does not set (`joinDate`, `existingJoinDate`,
`contactEmail`) are `none`, as the corresponding JS properties are
`undefined`. -/
structure JoinDateResult where
  success : Bool
  action : String
  message : String
  contactId : String
  joinDate : Option String
  existingJoinDate : Option String
  contactEmail : Option String
  deriving DecidableEq, Repr

/-- One external HubSpot API call, recorded in the order issued:
the connectivity test (`crm.properties.coreApi.getAll`), the contact
search (`crm.contacts.searchApi.doSearch`), or the contact update
(`crm.contacts.basicApi.update`). -/
inductive CrmCall where
  | propsRead
  | search (email : String)
  | update (contactId : String) (joinDate : String)
  deriving DecidableEq, Repr

/-- Whether a call is the mutating update call. -/
def CrmCall.isUpdate : CrmCall → Bool
  | .update _ _ => true
  | _ => false

/-- Whether a call is the contact search call. -/
def CrmCall.isSearch : CrmCall → Bool
  | .search _ => true
  | _ => false

/-- The environment supplying the outcome of each external call: the
connectivity test, the search (by email), and the update (by contact id
and new value).  `Except.error e` models the SDK call throwing an error
whose `message` is `e`. -/
structure Env where
  propsRead : Except String Unit
  search : String → Except String SearchResponse
  update : String → String → Except String Unit

/-! ## The lookup (`findContactByEmail`) -/

/-- The shape-tolerant extraction
`searchResult?.results || searchResult?.body?.results || []`: a present
top-level `results` list (truthy even when empty) wins; otherwise a
`body`-nested list; otherwise the empty list. -/
def extractResults (sr : SearchResponse) : List ContactRecord :=
  match sr.results with
  | some rs => rs
  | none =>
    match sr.body with
    | some b =>
      match b.results with
      | some rs => rs
      | none => []
    | none => []

/-- `findContactByEmail` from the source: issue the search call; on
failure wrap the cause in a `Contact search failed` error; otherwise
return the first record of the extracted list, or `none` when the list is
empty (`results.length > 0 ? results[0] : null`).  The second component is
the trace of external calls issued. -/
def findContactByEmail (env : Env) (email : String) :
    Except String (Option ContactRecord) × List CrmCall :=
  match env.search email with
  | Except.error e =>
    (Except.error ("Contact search failed: " ++ e), [CrmCall.search email])
  | Except.ok sr =>
    (Except.ok (extractResults sr).head?, [CrmCall.search email])

/-! ## The write-once update (`processJoinDateMapping`) -/

/-- `processJoinDateMapping` from the source: reject a missing email,
derive the join date from `stripeEvent.created`, resolve the contact,
fail when none is found, skip when `contact.properties.join_date` is
already truthy, and otherwise issue the single-field update.  Errors are
rethrown to the caller (`Except.error`); the second component is the
trace of external calls issued. -/
def processJoinDateMapping (env : Env) (stripeEvent : EventBody)
    (customerEmail : String) : Except String JoinDateResult × List CrmCall :=
  if customerEmail = "" then
    (Except.error "No customer email found in checkout session", [])
  else
    let joinDate := formatJoinDate stripeEvent.created
    match findContactByEmail env customerEmail with
    | (Except.error e, calls) => (Except.error e, calls)
    | (Except.ok none, calls) =>
      (Except.error ("No contact found with email: " ++ customerEmail), calls)
    | (Except.ok (some contact), calls) =>
      if jsTruthy contact.join_date then
        (Except.ok
          { success := true
            action := "skipped"
            message := "Join date already exists"
            contactId := contact.id
            joinDate := none
            existingJoinDate := contact.join_date
            contactEmail := none }, calls)
      else
        match env.update contact.id joinDate with
        | Except.error e =>
          (Except.error e, calls ++ [CrmCall.update contact.id joinDate])
        | Except.ok _ =>
          (Except.ok
            { success := true
              action := "updated"
              message := "Join date successfully set"
              contactId := contact.id
              joinDate := some joinDate
              existingJoinDate := none
              contactEmail := some customerEmail },
           calls ++ [CrmCall.update contact.id joinDate])

/-! ## The entry point (`exports.main`) -/

/-- The response body sent by the handler.  Fields a branch does not set
are `none` (`undefined` in JS); `success` bodies carry the `data` payload
fields inline. -/
structure HttpBody where
  status : String
  action : Option String
  message : String
  contactId : Option String
  joinDate : Option String
  contactEmail : Option String
  existingJoinDate : Option String
  eventId : Option String
  deriving DecidableEq, Repr

/-- The structured response handed to `sendResponse`. -/
structure HttpResponse where
  statusCode : Nat
  body : HttpBody
  deriving DecidableEq, Repr

/-- The 500 `error` response built by the handler's catch-all boundary. -/
def errorResponse (msg : String) : HttpResponse :=
  { statusCode := 500
    body := { status := "error", action := none, message := msg,
              contactId := none, joinDate := none, contactEmail := none,
              existingJoinDate := none, eventId := none } }

/-- `exports.main` from the source, as a total function from environment
and context to the single response passed to `sendResponse`, paired with
the trace of external calls.  The steps, in source order: secret check,
connectivity test, email extraction and check, event-type check, then
`processJoinDateMapping`; any thrown error reaches the single catch block
and becomes a 500 `error` response. -/
def main (env : Env) (ctx : Context) : HttpResponse × List CrmCall :=
  if ctx.joinDateKey = "" then
    (errorResponse "Missing required secret: joinDateKey", [])
  else
    match env.propsRead with
    | Except.error e =>
      (errorResponse ("HubSpot authentication failed: " ++ e), [CrmCall.propsRead])
    | Except.ok _ =>
      if ctx.body.customerEmail = "" then
        (errorResponse "No customer email found in webhook data", [CrmCall.propsRead])
      else if ctx.body.eventType ≠ "checkout.session.completed" then
        ({ statusCode := 200
           body := { status := "ignored", action := none,
                     message := "Event type " ++ ctx.body.eventType ++ " not processed",
                     contactId := none, joinDate := none, contactEmail := none,
                     existingJoinDate := none, eventId := none } },
         [CrmCall.propsRead])
      else
        match processJoinDateMapping env ctx.body ctx.body.customerEmail with
        | (Except.error e, calls) =>
          (errorResponse e, CrmCall.propsRead :: calls)
        | (Except.ok r, calls) =>
          ({ statusCode := 200
             body := { status := "success", action := some r.action,
                       message := r.message, contactId := some r.contactId,
                       joinDate := r.joinDate, contactEmail := r.contactEmail,
                       existingJoinDate := r.existingJoinDate,
                       eventId := some ctx.body.eventId } },
           CrmCall.propsRead :: calls)

/-! ## A stateful CRM model

The idempotence property quantifies over two successive invocations
against the same external store, so we instantiate the environment with a
concrete CRM: a list of contacts searched by exact email match (limit 1,
projecting only `join_date`, exactly the query `findContactByEmail`
issues) and updated by contact id.  Applying the recorded call trace to
the store yields the post-state. -/

/-- A contact as stored in the CRM: id, email, and the `join_date`
property (`none` when never written). -/
structure CrmContact where
  id : String
  email : String
  join_date : Option String
  deriving DecidableEq, Repr

/-- The external CRM store. -/
structure Crm where
  contacts : List CrmContact
  deriving DecidableEq, Repr

/-- The projection of a stored contact delivered by the search API. -/
def CrmContact.toRecord (c : CrmContact) : ContactRecord :=
  { id := c.id, join_date := c.join_date }

/-- The search response for an exact-email query with `limit 1`:
a flat `results` list holding at most the first match. -/
def crmSearch (crm : Crm) (email : String) : SearchResponse :=
  { results :=
      some (((crm.contacts.filter (fun c => c.email = email)).take 1).map
        CrmContact.toRecord)
    body := none }

/-- The single-field `PATCH` by contact id: set `join_date` on every
stored contact bearing that id. -/
def crmUpdate (crm : Crm) (contactId joinDate : String) : Crm :=
  { contacts :=
      crm.contacts.map fun c =>
        if c.id = contactId then { c with join_date := some joinDate } else c }

/-- The environment backed by the CRM store: the connectivity test and
updates succeed, searches answer from the store. -/
def crmEnv (crm : Crm) : Env :=
  { propsRead := Except.ok ()
    search := fun email => Except.ok (crmSearch crm email)
    update := fun _ _ => Except.ok () }

/-- Replay a call trace against the store: update calls mutate it,
read-only calls leave it unchanged. -/
def applyCalls : Crm → List CrmCall → Crm
  | crm, [] => crm
  | crm, CrmCall.update cid jd :: rest => applyCalls (crmUpdate crm cid jd) rest
  | crm, CrmCall.propsRead :: rest => applyCalls crm rest
  | crm, CrmCall.search _ :: rest => applyCalls crm rest

/-- `applyJoinDate` (the spec's name for one invocation of
`processJoinDateMapping`) against the CRM store: the result together with
the store after replaying the issued calls. -/
def applyJoinDate (crm : Crm) (stripeEvent : EventBody) (email : String) :
    Except String JoinDateResult × Crm :=
  let (r, calls) := processJoinDateMapping (crmEnv crm) stripeEvent email
  (r, applyCalls crm calls)

/-- The `join_date` the store holds for an email: that of the first
contact matching the email, the one the handler's limit-1 search
observes. -/
def storedJoinDate (crm : Crm) (email : String) : Option String :=
  ((crm.contacts.filter (fun c => c.email = email)).head?).bind
    (fun c => c.join_date)

/-- The `action` of a successful result, `none` on error. -/
def resultAction : Except String JoinDateResult → Option String
  | Except.ok r => some r.action
  | Except.error _ => none

/-! ## Supporting lemmas: the date string -/

/-- `takeWhile` recovers the prefix before the first failing element. -/
theorem takeWhile_append_of_forall {α : Type} (p : α → Bool) (a b : List α)
    (x : α) (ha : ∀ c ∈ a, p c = true) (hx : p x = false) :
    (a ++ x :: b).takeWhile p = a := by
  induction a with
  | nil => simp [List.takeWhile_cons, hx]
  | cons y ys ih =>
    have hy : p y = true := ha y (List.mem_cons_self y ys)
    simp [List.takeWhile_cons, hy]
    exact ih fun c hc => ha c (List.mem_cons_of_mem y hc)

/-- Digit characters are never `'T'`. -/
theorem digitChar_ne (k : Nat) (hk : k < 10) : digitChar k ≠ 'T' := by
  interval_cases k <;> decide

/-- Every character produced by `natDigitsAux` is a digit, hence not
`'T'`. -/
theorem natDigitsAux_ne (fuel : Nat) :
    ∀ n, ∀ c ∈ natDigitsAux fuel n, c ≠ 'T' := by
  induction fuel with
  | zero => intro n c hc; simp [natDigitsAux] at hc
  | succ fuel ih =>
    intro n c hc
    rw [natDigitsAux] at hc
    split at hc
    · simp at hc
      subst hc
      exact digitChar_ne n (by omega)
    · rcases List.mem_append.mp hc with h | h
      · exact ih (n / 10) c h
      · simp at h
        subst h
        exact digitChar_ne (n % 10) (Nat.mod_lt _ (by omega))

/-- Every character of `natDigits` is a digit, hence not `'T'`. -/
theorem natDigits_ne (n : Nat) : ∀ c ∈ natDigits n, c ≠ 'T' :=
  natDigitsAux_ne (n + 1) n

/-- Padded digit renderings contain no `'T'`. -/
theorem padNat_ne (w n : Nat) : ∀ c ∈ padNat w n, c ≠ 'T' := by
  intro c hc
  rcases List.mem_append.mp hc with h | h
  · have := List.eq_of_mem_replicate h
    subst this
    decide
  · exact natDigits_ne n c h

/-- The `YYYY-MM-DD` rendering contains no `'T'`. -/
theorem dateChars_ne (ymd : Nat × Nat × Nat) : ∀ c ∈ dateChars ymd, c ≠ 'T' := by
  intro c hc
  unfold dateChars at hc
  rcases List.mem_append.mp hc with h | h
  · exact padNat_ne 4 ymd.1 c h
  · rcases List.mem_cons.mp h with h | h
    · subst h; decide
    · rcases List.mem_append.mp h with h | h
      · exact padNat_ne 2 ymd.2.1 c h
      · rcases List.mem_cons.mp h with h | h
        · subst h; decide
        · exact padNat_ne 2 ymd.2.2 c h

/-- Taking the `toISOString` rendering up to the `'T'` separator yields
exactly the UTC calendar-date string: `formatJoinDate` implements the
UTC-truncation policy. -/
theorem formatJoinDate_eq_utc (ts : Nat) : formatJoinDate ts = utcDateString ts := by
  unfold formatJoinDate utcDateString toISOString
  have hdiv : ts * 1000 / 86400000 = ts / 86400 := by omega
  rw [hdiv]
  congr 1
  have hmk : (String.mk (dateChars (civilFromDays (ts / 86400)) ++
      'T' :: (timeChars (ts * 1000 % 86400000) ++ ['Z']))).data =
      dateChars (civilFromDays (ts / 86400)) ++
      'T' :: (timeChars (ts * 1000 % 86400000) ++ ['Z']) := rfl
  rw [hmk]
  refine takeWhile_append_of_forall _ _ _ _ ?_ (by decide)
  intro c hc
  exact decide_eq_true (dateChars_ne _ c hc)

end JoinDate
namespace JoinDate

theorem formatJoinDate_ne_empty (ts : Nat) : formatJoinDate ts ≠ "" := by
  rw [formatJoinDate_eq_utc]
  unfold utcDateString dateChars
  intro h
  have h2 := congrArg String.data h
  simp at h2

theorem findContactByEmail_calls (env : Env) (email : String) :
    (findContactByEmail env email).2 = [CrmCall.search email] := by
  unfold findContactByEmail
  cases env.search email <;> rfl

theorem process_calls (env : Env) (ev : EventBody) (email : String) :
    (processJoinDateMapping env ev email).2 = [] ∨
    (processJoinDateMapping env ev email).2 = [CrmCall.search email] ∨
    ∃ cid, (processJoinDateMapping env ev email).2 =
      [CrmCall.search email, CrmCall.update cid (formatJoinDate ev.created)] := by
  unfold processJoinDateMapping
  split
  · exact Or.inl rfl
  · split
    next e calls heq =>
      have h2 := congrArg Prod.snd heq
      rw [findContactByEmail_calls] at h2
      simp at h2 ⊢
      simp [h2]
    next calls heq =>
      have h2 := congrArg Prod.snd heq
      rw [findContactByEmail_calls] at h2
      simp at h2 ⊢
      simp [h2]
    next contact calls heq =>
      have h2 := congrArg Prod.snd heq
      rw [findContactByEmail_calls] at h2
      simp at h2
      subst h2
      split
      · simp
      · cases henv : env.update contact.id (formatJoinDate ev.created) <;> simp [henv]

theorem main_calls (env : Env) (ctx : Context) :
    (main env ctx).2 = [] ∨ (main env ctx).2 = [CrmCall.propsRead] ∨
    (main env ctx).2 = CrmCall.propsRead ::
      (processJoinDateMapping env ctx.body ctx.body.customerEmail).2 := by
  unfold main
  split
  · exact Or.inl rfl
  · cases env.propsRead with
    | error e => simp
    | ok u =>
      simp only
      split
      · simp
      · split
        · simp
        · split
          next e calls heq =>
            have h2 := congrArg Prod.snd heq
            simp at h2 ⊢
            simp [h2]
          next r calls heq =>
            have h2 := congrArg Prod.snd heq
            simp at h2 ⊢
            simp [h2]

def someStepFails (env : Env) (ctx : Context) : Prop :=
  ctx.joinDateKey = "" ∨
  (∃ e, env.propsRead = Except.error e) ∨
  ctx.body.customerEmail = "" ∨
  (ctx.body.eventType = "checkout.session.completed" ∧
    ∃ e, (processJoinDateMapping env ctx.body ctx.body.customerEmail).1 = Except.error e)

theorem main_status (env : Env) (ctx : Context) :
    ((main env ctx).1.body.status = "error" ↔ (main env ctx).1.statusCode = 500) ∧
    (((main env ctx).1.body.status = "success" ∨ (main env ctx).1.body.status = "ignored")
      ↔ (main env ctx).1.statusCode = 200) ∧
    ((main env ctx).1.body.status = "error" ↔ someStepFails env ctx) := by
  unfold main someStepFails
  split
  next hkey => simp [errorResponse, hkey]
  next hkey =>
    cases henv : env.propsRead with
    | error e => simp [errorResponse, hkey, henv]
    | ok u =>
      simp only
      split
      next hmail => simp [errorResponse, hkey, henv, hmail]
      next hmail =>
        split
        next htype => simp [errorResponse, hkey, henv, hmail, htype]
        next htype =>
          split
          next e calls heq =>
            have h1 := congrArg Prod.fst heq
            simp at htype
            simp [errorResponse, hkey, henv, hmail, htype, h1]
          next r calls heq =>
            have h1 := congrArg Prod.fst heq
            simp at htype
            simp [errorResponse, hkey, henv, hmail, htype, h1]

end JoinDate
namespace JoinDate

/-! ## Supporting lemmas: branch behaviour of the operations -/

/-- Write-once skip branch of `processJoinDateMapping`: when the search
succeeds, a contact is found, and its `join_date` is already truthy, the
result is `skipped` with the existing value, and only the search call is
issued. -/
theorem process_skipped (env : Env) (ev : EventBody) (email : String)
    (sr : SearchResponse) (contact : ContactRecord)
    (hemail : email ≠ "")
    (hsearch : env.search email = Except.ok sr)
    (hfound : (extractResults sr).head? = some contact)
    (hset : jsTruthy contact.join_date = true) :
    processJoinDateMapping env ev email =
      (Except.ok
        { success := true
          action := "skipped"
          message := "Join date already exists"
          contactId := contact.id
          joinDate := none
          existingJoinDate := contact.join_date
          contactEmail := none }, [CrmCall.search email]) := by
  unfold processJoinDateMapping findContactByEmail
  rw [hsearch]
  simp [hemail, hfound, hset]

/-- Update branch of `processJoinDateMapping`: when the found contact's
`join_date` is not truthy and the update succeeds, the result is
`updated` with the derived date, and the trace is the search followed by
the single update. -/
theorem process_updated (env : Env) (ev : EventBody) (email : String)
    (sr : SearchResponse) (contact : ContactRecord)
    (hemail : email ≠ "")
    (hsearch : env.search email = Except.ok sr)
    (hfound : (extractResults sr).head? = some contact)
    (hnotset : jsTruthy contact.join_date = false)
    (hupd : env.update contact.id (formatJoinDate ev.created) = Except.ok ()) :
    processJoinDateMapping env ev email =
      (Except.ok
        { success := true
          action := "updated"
          message := "Join date successfully set"
          contactId := contact.id
          joinDate := some (formatJoinDate ev.created)
          existingJoinDate := none
          contactEmail := some email },
       [CrmCall.search email, CrmCall.update contact.id (formatJoinDate ev.created)]) := by
  unfold processJoinDateMapping findContactByEmail
  rw [hsearch]
  simp [hemail, hfound, hnotset, hupd]

/-- The record the CRM-backed search hands to the handler is the
projection of the first stored contact matching the email. -/
theorem crmSearch_head (crm : Crm) (email : String) :
    (extractResults (crmSearch crm email)).head? =
      ((crm.contacts.filter (fun x => x.email = email)).head?).map
        CrmContact.toRecord := by
  unfold crmSearch extractResults
  simp [List.head?_take, List.head?_map]

/-- Updating by id leaves the email filter stable: the filtered list
after an update is the filtered list before it, with the update mapped
over it. -/
theorem crmUpdate_filter_email (crm : Crm) (cid jd email : String) :
    (crmUpdate crm cid jd).contacts.filter (fun x => x.email = email) =
      (crm.contacts.filter (fun x => x.email = email)).map
        (fun x => if x.id = cid then { x with join_date := some jd } else x) := by
  unfold crmUpdate
  simp only
  rw [List.filter_map]
  congr 1
  apply List.filter_congr
  intro x _
  by_cases h : x.id = cid <;> simp [Function.comp, h]

/-- One CRM-backed invocation on a contact with no `join_date`: the
result is `updated` and the store gains the derived date. -/
theorem applyJoinDate_updated (crm : Crm) (ev : EventBody) (email : String)
    (c : CrmContact)
    (hemail : email ≠ "")
    (hfind : (crm.contacts.filter (fun x => x.email = email)).head? = some c)
    (hempty : jsTruthy c.join_date = false) :
    applyJoinDate crm ev email =
      (Except.ok
        { success := true
          action := "updated"
          message := "Join date successfully set"
          contactId := c.id
          joinDate := some (formatJoinDate ev.created)
          existingJoinDate := none
          contactEmail := some email },
       crmUpdate crm c.id (formatJoinDate ev.created)) := by
  unfold applyJoinDate
  have hfound : (extractResults (crmSearch crm email)).head? =
      some c.toRecord := by
    rw [crmSearch_head, hfind]
    rfl
  rw [process_updated (crmEnv crm) ev email (crmSearch crm email) c.toRecord
    hemail rfl hfound hempty rfl]
  rfl

/-- One CRM-backed invocation on a contact whose `join_date` is set: the
result is `skipped` and the store is unchanged. -/
theorem applyJoinDate_skipped (crm : Crm) (ev : EventBody) (email : String)
    (c : CrmContact)
    (hemail : email ≠ "")
    (hfind : (crm.contacts.filter (fun x => x.email = email)).head? = some c)
    (hset : jsTruthy c.join_date = true) :
    applyJoinDate crm ev email =
      (Except.ok
        { success := true
          action := "skipped"
          message := "Join date already exists"
          contactId := c.id
          joinDate := none
          existingJoinDate := c.join_date
          contactEmail := none }, crm) := by
  unfold applyJoinDate
  have hfound : (extractResults (crmSearch crm email)).head? =
      some c.toRecord := by
    rw [crmSearch_head, hfind]
    rfl
  rw [process_skipped (crmEnv crm) ev email (crmSearch crm email) c.toRecord
    hemail rfl hfound hset]
  rfl

end JoinDate

/-! ## Concrete sample data

Closed instances used by the witness and counterexample theorems. -/

namespace JoinDate

/-- A contact whose `join_date` is already set. -/
def sampleContactSet : ContactRecord := { id := "104951", join_date := some "2025-07-19" }

/-- A contact whose `join_date` has never been written. -/
def sampleContactUnset : ContactRecord := { id := "104951", join_date := none }

/-- A second, distinct contact record. -/
def otherContact : ContactRecord := { id := "205", join_date := some "2024-01-01" }

/-- An environment whose search returns a flat (top-level) result list. -/
def flatEnv (rs : List ContactRecord) : Env :=
  { propsRead := Except.ok ()
    search := fun _ => Except.ok { results := some rs, body := none }
    update := fun _ _ => Except.ok () }

/-- An environment whose search returns a `body`-wrapped result list. -/
def wrappedEnv (rs : List ContactRecord) : Env :=
  { propsRead := Except.ok ()
    search := fun _ => Except.ok { results := none, body := some { results := some rs } }
    update := fun _ _ => Except.ok () }

/-- An environment whose search returns both a top-level and a wrapped
result list. -/
def bothEnv (rs1 rs2 : List ContactRecord) : Env :=
  { propsRead := Except.ok ()
    search := fun _ =>
      Except.ok { results := some rs1, body := some { results := some rs2 } }
    update := fun _ _ => Except.ok () }

/-- An environment whose connectivity test fails. -/
def badConnEnv : Env :=
  { propsRead := Except.error "boom"
    search := fun _ => Except.ok { results := some [], body := none }
    update := fun _ _ => Except.ok () }

/-- A checkout-completed event carrying an email. -/
def sampleEvent : EventBody :=
  { eventType := "checkout.session.completed", eventId := "evt_1"
    created := 1752979200, customerEmail := "a@example.com" }

/-- A later checkout-completed event for the same customer. -/
def laterEvent : EventBody :=
  { eventType := "checkout.session.completed", eventId := "evt_2"
    created := 1753065600, customerEmail := "a@example.com" }

/-- An event of a non-sentinel type (`invoice.paid`). -/
def invoiceEvent : EventBody :=
  { eventType := "invoice.paid", eventId := "evt_3"
    created := 1752979200, customerEmail := "a@example.com" }

/-- A context holding a non-sentinel event with an email present. -/
def invoiceCtx : Context := { joinDateKey := "key", body := invoiceEvent }

/-- A context holding a non-sentinel event lacking a customer email. -/
def invoiceNoEmailCtx : Context :=
  { joinDateKey := "key"
    body := { eventType := "invoice.paid", eventId := "evt_4"
              created := 1752979200, customerEmail := "" } }

/-- A context holding a checkout-completed event lacking a customer
email. -/
def checkoutNoEmailCtx : Context :=
  { joinDateKey := "key"
    body := { eventType := "checkout.session.completed", eventId := "evt_5"
              created := 1752979200, customerEmail := "" } }

/-- A CRM store with no contacts. -/
def emptyCrm : Crm := { contacts := [] }

/-- A CRM store with one contact whose `join_date` is unset. -/
def sampleCrm : Crm :=
  { contacts := [{ id := "104951", email := "a@example.com", join_date := none }] }

/-! ## Supporting lemmas: handler branches -/

/-- Whenever the secret is present, the connectivity test is the first
external call issued, before the event type is examined. -/
theorem main_head (env : Env) (ctx : Context) (hkey : ctx.joinDateKey ≠ "") :
    (main env ctx).2.head? = some CrmCall.propsRead := by
  unfold main
  split
  next h => exact absurd h hkey
  next =>
    cases env.propsRead with
    | error e => rfl
    | ok u =>
      simp only
      split
      · rfl
      · split
        · rfl
        · split <;> rfl

/-- A failing connectivity test yields the authentication-failed 500
response, whatever the event looks like. -/
theorem main_authFail (env : Env) (ctx : Context) (e : String)
    (hkey : ctx.joinDateKey ≠ "") (he : env.propsRead = Except.error e) :
    main env ctx =
      (errorResponse ("HubSpot authentication failed: " ++ e), [CrmCall.propsRead]) := by
  unfold main
  simp [hkey, he]

/-- A missing customer email yields the missing-email 500 response,
whatever the event type, after the connectivity test. -/
theorem main_noEmail (env : Env) (ctx : Context)
    (hkey : ctx.joinDateKey ≠ "") (hconn : env.propsRead = Except.ok ())
    (hmail : ctx.body.customerEmail = "") :
    main env ctx =
      (errorResponse "No customer email found in webhook data", [CrmCall.propsRead]) := by
  unfold main
  simp [hkey, hconn, hmail]

/-- A non-sentinel event type with secret, connectivity and email all in
order yields the 200 `ignored` response with only the connectivity call
issued. -/
theorem main_ignored (env : Env) (ctx : Context)
    (hkey : ctx.joinDateKey ≠ "") (hconn : env.propsRead = Except.ok ())
    (hmail : ctx.body.customerEmail ≠ "")
    (htype : ctx.body.eventType ≠ "checkout.session.completed") :
    main env ctx =
      ({ statusCode := 200
         body := { status := "ignored", action := none
                   message := "Event type " ++ ctx.body.eventType ++ " not processed"
                   contactId := none, joinDate := none, contactEmail := none
                   existingJoinDate := none, eventId := none } },
       [CrmCall.propsRead]) := by
  unfold main
  simp [hkey, hconn, hmail, htype]

/-- Every invocation of `processJoinDateMapping` issues at most one
update call. -/
theorem process_update_count (env : Env) (ev : EventBody) (email : String) :
    ((processJoinDateMapping env ev email).2.countP CrmCall.isUpdate) ≤ 1 := by
  rcases process_calls env ev email with h | h | ⟨cid, h⟩ <;>
    simp [h, List.countP_cons, CrmCall.isUpdate]

end JoinDate

/-! ## The claims -/

namespace JoinDate

/-- C1 — Write-once invariant: for every contact whose `join_date` is
already set to a non-empty value, any invocation of
`processJoinDateMapping` (the spec's `applyJoinDate`) returns a `skipped`
result carrying the existing `join_date` value and the contact
identifier, and the call trace holds only the search — no update call is
issued to the CRM — regardless of the timestamp supplied. -/
theorem claim_C1 (env : Env) (ev : EventBody) (email : String)
    (sr : SearchResponse) (contact : ContactRecord)
    (hemail : email ≠ "")
    (hsearch : env.search email = Except.ok sr)
    (hfound : (extractResults sr).head? = some contact)
    (hset : jsTruthy contact.join_date = true) :
    processJoinDateMapping env ev email =
      (Except.ok
        { success := true
          action := "skipped"
          message := "Join date already exists"
          contactId := contact.id
          joinDate := none
          existingJoinDate := contact.join_date
          contactEmail := none }, [CrmCall.search email]) :=
  process_skipped env ev email sr contact hemail hsearch hfound hset

/-- C1 witness: a contact with `join_date = "2025-07-19"` is skipped and
the trace holds no update call. -/
theorem claim_C1_witness :
    processJoinDateMapping (flatEnv [sampleContactSet]) sampleEvent "a@example.com" =
      (Except.ok
        { success := true
          action := "skipped"
          message := "Join date already exists"
          contactId := "104951"
          joinDate := none
          existingJoinDate := some "2025-07-19"
          contactEmail := none }, [CrmCall.search "a@example.com"]) :=
  claim_C1 (flatEnv [sampleContactSet]) sampleEvent "a@example.com"
    { results := some [sampleContactSet], body := none } sampleContactSet
    (by decide) rfl rfl (by decide)

/-- C2 counterexample: an inbound event whose type is not the
checkout-completed sentinel but whose payload lacks a customer email
produces an `error` response with HTTP status 500, not `ignored` — the
handler validates the email before examining the event type. -/
theorem claim_C2_counterexample :
    invoiceNoEmailCtx.body.eventType ≠ "checkout.session.completed" ∧
    (main (crmEnv emptyCrm) invoiceNoEmailCtx).1.body.status = "error" ∧
    (main (crmEnv emptyCrm) invoiceNoEmailCtx).1.body.status ≠ "ignored" ∧
    (main (crmEnv emptyCrm) invoiceNoEmailCtx).1.statusCode = 500 := by
  decide

/-- C2 (amended) — Ignored-event passthrough: for every inbound event
whose type is not the checkout-completed sentinel, provided the
credential secret is present, the connectivity test succeeds and the
customer email is non-empty, the handler returns an `ignored` outcome
with HTTP status 200 and issues no search or update call and none of the
JoinDateAssigner operations (only the pre-existing connectivity call
appears in the trace). -/
theorem claim_C2 (env : Env) (ctx : Context)
    (hkey : ctx.joinDateKey ≠ "")
    (hconn : env.propsRead = Except.ok ())
    (hemail : ctx.body.customerEmail ≠ "")
    (htype : ctx.body.eventType ≠ "checkout.session.completed") :
    (main env ctx).1.statusCode = 200 ∧
    (main env ctx).1.body.status = "ignored" ∧
    (main env ctx).2 = [CrmCall.propsRead] := by
  rw [main_ignored env ctx hkey hconn hemail htype]
  exact ⟨rfl, rfl, rfl⟩

/-- C2 witness: an `invoice.paid` event with secret, connectivity and
email in order is ignored with status 200 and no search or update
call. -/
theorem claim_C2_witness :
    (main (crmEnv emptyCrm) invoiceCtx).1.statusCode = 200 ∧
    (main (crmEnv emptyCrm) invoiceCtx).1.body.status = "ignored" ∧
    (main (crmEnv emptyCrm) invoiceCtx).2 = [CrmCall.propsRead] :=
  claim_C2 (crmEnv emptyCrm) invoiceCtx (by decide) rfl (by decide) (by decide)

/-- C3 — Idempotence: for every contact initially without a `join_date`,
invoking `applyJoinDate` twice in sequence (with the same or a later
timestamp on the second call) yields `updated` on the first call and
`skipped` on the second; the store is unchanged by the second call and
the stored `join_date` after the second call is the date derived by the
first call. -/
theorem claim_C3 (crm : Crm) (ev1 ev2 : EventBody) (email : String)
    (c : CrmContact)
    (hemail : email ≠ "")
    (hfind : (crm.contacts.filter (fun x => x.email = email)).head? = some c)
    (hempty : jsTruthy c.join_date = false)
    (_hts : ev1.created ≤ ev2.created) :
    resultAction (applyJoinDate crm ev1 email).1 = some "updated" ∧
    resultAction (applyJoinDate (applyJoinDate crm ev1 email).2 ev2 email).1 =
      some "skipped" ∧
    (applyJoinDate (applyJoinDate crm ev1 email).2 ev2 email).2 =
      (applyJoinDate crm ev1 email).2 ∧
    storedJoinDate (applyJoinDate (applyJoinDate crm ev1 email).2 ev2 email).2 email =
      some (formatJoinDate ev1.created) := by
  have h1 := applyJoinDate_updated crm ev1 email c hemail hfind hempty
  have hfilter := crmUpdate_filter_email crm c.id (formatJoinDate ev1.created) email
  have hfind2 : ((crmUpdate crm c.id (formatJoinDate ev1.created)).contacts.filter
      (fun x => x.email = email)).head? =
      some { c with join_date := some (formatJoinDate ev1.created) } := by
    rw [hfilter, List.head?_map, hfind]
    simp
  have hset2 : jsTruthy (some (formatJoinDate ev1.created)) = true := by
    simp [jsTruthy]
    exact formatJoinDate_ne_empty ev1.created
  have h2 := applyJoinDate_skipped (crmUpdate crm c.id (formatJoinDate ev1.created))
    ev2 email { c with join_date := some (formatJoinDate ev1.created) } hemail hfind2 hset2
  rw [h1]
  simp only
  rw [h2]
  refine ⟨rfl, rfl, rfl, ?_⟩
  unfold storedJoinDate
  rw [hfind2]
  rfl

/-- C3 witness: on a one-contact store, two successive invocations a day
apart yield `updated` then `skipped` and leave `join_date` at the date
derived from the first timestamp. -/
theorem claim_C3_witness :
    resultAction (applyJoinDate sampleCrm sampleEvent "a@example.com").1 =
      some "updated" ∧
    resultAction (applyJoinDate (applyJoinDate sampleCrm sampleEvent "a@example.com").2
      laterEvent "a@example.com").1 = some "skipped" ∧
    (applyJoinDate (applyJoinDate sampleCrm sampleEvent "a@example.com").2
      laterEvent "a@example.com").2 =
      (applyJoinDate sampleCrm sampleEvent "a@example.com").2 ∧
    storedJoinDate (applyJoinDate (applyJoinDate sampleCrm sampleEvent "a@example.com").2
      laterEvent "a@example.com").2 "a@example.com" =
      some (formatJoinDate 1752979200) :=
  claim_C3 sampleCrm sampleEvent laterEvent "a@example.com"
    { id := "104951", email := "a@example.com", join_date := none }
    (by decide) (by decide) (by decide) (by decide)

/-- C4 — Date derivation: for every valid seconds-since-epoch timestamp
(within the range rendered with a four-digit year, up to
9999-12-31T23:59:59Z), `formatJoinDate` returns the `YYYY-MM-DD` calendar
date string obtained by truncating the instant to its UTC calendar date;
in particular timestamp `1752979200` yields `"2025-07-20"`. -/
theorem claim_C4 :
    (∀ ts : Nat, ts ≤ 253402300799 → formatJoinDate ts = utcDateString ts) ∧
    formatJoinDate 1752979200 = "2025-07-20" :=
  ⟨fun ts _ => formatJoinDate_eq_utc ts, by decide⟩

/-- C4 witness: the UTC-truncation equality instantiated at timestamp
`1752979200`. -/
theorem claim_C4_witness :
    (1752979200 : Nat) ≤ 253402300799 ∧
    formatJoinDate 1752979200 = utcDateString 1752979200 :=
  ⟨by decide, claim_C4.1 1752979200 (by decide)⟩

/-- C5 — At-most-one mutation: every invocation of
`processJoinDateMapping` issues zero or one update calls, never more, on
any path including error paths; the same holds for a whole handler
invocation. -/
theorem claim_C5 (env : Env) (ev : EventBody) (email : String) (ctx : Context) :
    ((processJoinDateMapping env ev email).2.countP CrmCall.isUpdate) ≤ 1 ∧
    ((main env ctx).2.countP CrmCall.isUpdate) ≤ 1 := by
  refine ⟨process_update_count env ev email, ?_⟩
  rcases main_calls env ctx with h | h | h <;>
    simp [h, List.countP_cons, CrmCall.isUpdate]
  exact process_update_count env ctx.body ctx.body.customerEmail

/-- C6 — Error boundary: `main` is total (every error is caught at the
boundary and converted to a response, never re-thrown), the `error`
status coincides exactly with HTTP status 500 and with some internal step
having failed, and the successful or ignored outcomes coincide exactly
with HTTP status 200. -/
theorem claim_C6 (env : Env) (ctx : Context) :
    ((main env ctx).1.body.status = "error" ↔ (main env ctx).1.statusCode = 500) ∧
    (((main env ctx).1.body.status = "success" ∨ (main env ctx).1.body.status = "ignored")
      ↔ (main env ctx).1.statusCode = 200) ∧
    ((main env ctx).1.body.status = "error" ↔ someStepFails env ctx) :=
  main_status env ctx

/-- C7 — Lookup shape tolerance: whether the search response carries its
result list at top level or nested under `body`, `findContactByEmail`
returns the first record of that list, and `none` (the not-found signal)
when the list is empty. -/
theorem claim_C7 (env : Env) (email : String) (rs : List ContactRecord)
    (hshape : env.search email = Except.ok { results := some rs, body := none } ∨
      env.search email =
        Except.ok { results := none, body := some { results := some rs } }) :
    findContactByEmail env email = (Except.ok rs.head?, [CrmCall.search email]) := by
  rcases hshape with h | h <;>
    · unfold findContactByEmail
      rw [h]
      rfl

/-- C7 witness: the same one-record list, delivered flat or wrapped,
yields the same found contact. -/
theorem claim_C7_witness :
    findContactByEmail (flatEnv [sampleContactUnset]) "a@example.com" =
      (Except.ok (some sampleContactUnset), [CrmCall.search "a@example.com"]) ∧
    findContactByEmail (wrappedEnv [sampleContactUnset]) "a@example.com" =
      (Except.ok (some sampleContactUnset), [CrmCall.search "a@example.com"]) :=
  ⟨claim_C7 (flatEnv [sampleContactUnset]) "a@example.com" [sampleContactUnset]
      (Or.inl rfl),
   claim_C7 (wrappedEnv [sampleContactUnset]) "a@example.com" [sampleContactUnset]
      (Or.inr rfl)⟩

/-- C8 counterexample: on an event lacking a customer email, the handler
does issue an external CRM call (the connectivity properties-read) before
failing with the missing-email error, so the failure is not "before any
external call". -/
theorem claim_C8_counterexample :
    checkoutNoEmailCtx.body.customerEmail = "" ∧
    (main (crmEnv emptyCrm) checkoutNoEmailCtx).1.body.status = "error" ∧
    (main (crmEnv emptyCrm) checkoutNoEmailCtx).1.body.message =
      "No customer email found in webhook data" ∧
    (main (crmEnv emptyCrm) checkoutNoEmailCtx).2 = [CrmCall.propsRead] ∧
    (main (crmEnv emptyCrm) checkoutNoEmailCtx).2 ≠ [] := by
  decide

/-- C8 (amended) — Missing-email abort: for every invocation whose
inbound event lacks a non-empty customer email (secret present,
connectivity test passing), processing fails with a missing-email error
before any search or update call is made — though the connectivity
properties-read call does precede the failure; at the
`processJoinDateMapping` level the missing-email failure precedes every
external call. -/
theorem claim_C8 (env : Env) (ctx : Context) (ev : EventBody)
    (hkey : ctx.joinDateKey ≠ "")
    (hconn : env.propsRead = Except.ok ())
    (hemail : ctx.body.customerEmail = "") :
    (main env ctx).1.body.status = "error" ∧
    (main env ctx).1.statusCode = 500 ∧
    (main env ctx).1.body.message = "No customer email found in webhook data" ∧
    (main env ctx).2 = [CrmCall.propsRead] ∧
    processJoinDateMapping env ev "" =
      (Except.error "No customer email found in checkout session", []) := by
  rw [main_noEmail env ctx hkey hconn hemail]
  refine ⟨rfl, rfl, rfl, rfl, ?_⟩
  unfold processJoinDateMapping
  simp

/-- C8 witness: a checkout event lacking an email fails with the
missing-email error, having issued only the connectivity call. -/
theorem claim_C8_witness :
    (main (flatEnv []) checkoutNoEmailCtx).1.body.status = "error" ∧
    (main (flatEnv []) checkoutNoEmailCtx).1.statusCode = 500 ∧
    (main (flatEnv []) checkoutNoEmailCtx).1.body.message =
      "No customer email found in webhook data" ∧
    (main (flatEnv []) checkoutNoEmailCtx).2 = [CrmCall.propsRead] ∧
    processJoinDateMapping (flatEnv []) sampleEvent "" =
      (Except.error "No customer email found in checkout session", []) :=
  claim_C8 (flatEnv []) checkoutNoEmailCtx sampleEvent (by decide) rfl (by decide)

/-- C9 — Pre-type-check side effects: whenever the credential secret is
present, the handler issues the HubSpot properties-read connectivity call
first — before examining the event type — and validates the customer
email next, so a failed connectivity test or a missing email produces the
corresponding `error` response (HTTP 500) for events of any type,
including non-sentinel types that would otherwise be `ignored`. -/
theorem claim_C9 (env : Env) (ctx : Context) (hkey : ctx.joinDateKey ≠ "") :
    (main env ctx).2.head? = some CrmCall.propsRead ∧
    (∀ e, env.propsRead = Except.error e →
      (main env ctx).1 = errorResponse ("HubSpot authentication failed: " ++ e)) ∧
    (env.propsRead = Except.ok () → ctx.body.customerEmail = "" →
      (main env ctx).1 = errorResponse "No customer email found in webhook data") := by
  refine ⟨main_head env ctx hkey, ?_, ?_⟩
  · intro e he
    rw [main_authFail env ctx e hkey he]
  · intro hconn hmail
    rw [main_noEmail env ctx hkey hconn hmail]

/-- C9 witness: an `invoice.paid` (non-sentinel) event under a failing
connectivity test draws the properties-read call and an `error` response
rather than `ignored`. -/
theorem claim_C9_witness :
    (main badConnEnv invoiceCtx).2.head? = some CrmCall.propsRead ∧
    (main badConnEnv invoiceCtx).1 =
      errorResponse ("HubSpot authentication failed: " ++ "boom") :=
  ⟨(claim_C9 badConnEnv invoiceCtx (by decide)).1,
   (claim_C9 badConnEnv invoiceCtx (by decide)).2.1 "boom" rfl⟩

/-- C10 — Lookup shape precedence: when the search response carries both
a top-level and a `body`-nested result list, `findContactByEmail` uses
the top-level one; when the selected list is empty, or neither shape is
present, it returns the not-found signal `none` rather than an error. -/
theorem claim_C10 (env : Env) (email : String) (rs1 rs2 : List ContactRecord) :
    (env.search email =
        Except.ok { results := some rs1, body := some { results := some rs2 } } →
      findContactByEmail env email = (Except.ok rs1.head?, [CrmCall.search email])) ∧
    (∀ sr, env.search email = Except.ok sr → extractResults sr = [] →
      findContactByEmail env email = (Except.ok none, [CrmCall.search email])) ∧
    extractResults { results := none, body := none } = [] ∧
    extractResults { results := none, body := some { results := none } } = [] := by
  refine ⟨?_, ?_, rfl, rfl⟩
  · intro h
    unfold findContactByEmail
    rw [h]
    rfl
  · intro sr hsr hempty
    unfold findContactByEmail
    rw [hsr]
    simp [hempty]

/-- C10 witness: with both shapes present the top-level record wins; with
an empty top-level list the lookup reports not-found even though the
wrapped list is non-empty. -/
theorem claim_C10_witness :
    findContactByEmail (bothEnv [sampleContactUnset] [otherContact]) "a@example.com" =
      (Except.ok (some sampleContactUnset), [CrmCall.search "a@example.com"]) ∧
    findContactByEmail (bothEnv [] [otherContact]) "b@example.com" =
      (Except.ok none, [CrmCall.search "b@example.com"]) :=
  ⟨(claim_C10 (bothEnv [sampleContactUnset] [otherContact]) "a@example.com"
      [sampleContactUnset] [otherContact]).1 rfl,
   (claim_C10 (bothEnv [] [otherContact]) "b@example.com" [] [otherContact]).2.1
      { results := some [], body := some { results := some [otherContact] } } rfl rfl⟩

end JoinDate
